import Mathlib

/-!
Verification of the result-shaping query executor in
`starlette_sqlalchemy/query.py`.

The Python module wraps an async SQLAlchemy session and normalizes result
consumption: `one`, `one_or_none`, `one_or_raise`, `one_or_default`, `all`,
`iterator`, `exists`, `count`, `choices`.  We embed the observable behaviour
shallowly: a query statement is modelled by the list of scalar rows it yields,
Python scalar values by an inductive `PyVal` with Python truthiness, exceptions
by an inductive `Exc`, and each async method by a function into `Except Exc`.
-/

/-- Python scalar values as they flow through the executor: `None`, booleans,
integers, strings, and mapped ORM objects with named attributes. -/
inductive PyVal where
  | none
  | bool (b : Bool)
  | int (n : Int)
  | str (s : String)
  | obj (fields : List (String × PyVal))

/-- Python truthiness (`if entity:`): `None`, `False`, `0` and `""` are falsy;
a plain mapped object is truthy. -/
def PyVal.truthy : PyVal → Bool
  | .none => false
  | .bool b => b
  | .int n => n != 0
  | .str s => s != ""
  | .obj _ => true

/-- Models the Python `x is True` identity test used by `Query.exists`. -/
def PyVal.isTrue : PyVal → Bool
  | .bool true => true
  | _ => false

/-- Models the Python `x is None` identity test used by `Query.one_or_raise`. -/
def PyVal.isNone : PyVal → Bool
  | .none => true
  | _ => false

/-- Models Python `int(x)`: identity on ints, `0`/`1` on bools, and undefined
(`Option.none`, a `TypeError` at runtime) on other values. -/
def PyVal.toInt : PyVal → Option Int
  | .int n => some n
  | .bool b => some (if b then 1 else 0)
  | _ => Option.none

/-- Models Python `str(x)`, the row's string representation (default label
selector of `choices`). -/
def pyStr : PyVal → String
  | .none => "None"
  | .bool b => if b then "True" else "False"
  | .int n => toString n
  | .str s => s
  | .obj _ => "object"

/-- Exceptions observable at this layer.  `NoResultError` subclasses
SQLAlchemy's `NoResultFound` and `MultipleResultsError` subclasses
`MultipleResultsFound` (see `query.py` lines 19-22); `custom` stands for a
caller-supplied exception object passed to `one_or_raise`; `sessionFault`
stands for any other fault raised by the session (connectivity, syntax,
constraint violation); `typeError` models Python `TypeError` from `int()`. -/
inductive Exc where
  | noResultFound
  | multipleResultsFound
  | noResultError
  | multipleResultsError
  | custom (tag : Nat)
  | sessionFault (code : Nat)
  | typeError
deriving DecidableEq, Repr

/-- Whether `except NoResultFound` catches this exception (the subclass
`NoResultError` is also caught). -/
def Exc.caughtAsNoResultFound : Exc → Bool
  | .noResultFound => true
  | .noResultError => true
  | _ => false

/-- Whether `except MultipleResultsFound` catches this exception (the subclass
`MultipleResultsError` is also caught). -/
def Exc.caughtAsMultipleResultsFound : Exc → Bool
  | .multipleResultsFound => true
  | .multipleResultsError => true
  | _ => false

/-- A `sa.Select` statement as this layer manipulates it: an opaque,
already-built base query (identified by the scalar rows it yields), the
`sa.select(sa.func.count()).select_from(stmt.subquery())` wrapper built by
`Query.count`, the `sa.select(sa.exists(stmt))` wrapper built by
`Query.exists`, and the `stmt.execution_options(yield_per=batch_size)` hint
attached by `Query.iterator`. -/
inductive Stmt where
  | base (rows : List PyVal)
  | selectCountFrom (sub : Stmt)
  | selectExists (sub : Stmt)
  | withYieldPer (batchSize : Nat) (sub : Stmt)

/-- The scalar rows a statement yields when executed: the count wrapper yields
the single row `count(*)` of its sub-query, the exists wrapper yields a single
boolean row, and an execution hint does not change the rows. -/
def rowsOf : Stmt → List PyVal
  | .base rows => rows
  | .selectCountFrom sub => [.int (rowsOf sub).length]
  | .selectExists sub => [.bool (!(rowsOf sub).isEmpty)]
  | .withYieldPer _ sub => rowsOf sub

/-- The session collaborator: executes statements; `fault` is the session-level
fault it raises during execution, if any. -/
structure Session where
  fault : Option Exc

/-- `dbsession.scalars(stmt)`: raises the session fault if there is one,
otherwise returns the scalar result rows. -/
def Session.scalars (s : Session) (stmt : Stmt) : Except Exc (List PyVal) :=
  match s.fault with
  | some e => .error e
  | Option.none => .ok (rowsOf stmt)

/-- `dbsession.stream(stmt)`: server-side streaming execution; yields the same
rows in the same order as `scalars`, or raises the session fault. -/
def Session.stream (s : Session) (stmt : Stmt) : Except Exc (List PyVal) :=
  match s.fault with
  | some e => .error e
  | Option.none => .ok (rowsOf stmt)

/-- SQLAlchemy `ScalarResult.one()`: the single row, `NoResultFound` on zero
rows, `MultipleResultsFound` on more than one. -/
def ScalarResult.one : List PyVal → Except Exc PyVal
  | [] => .error .noResultFound
  | [x] => .ok x
  | _ :: _ :: _ => .error .multipleResultsFound

/-- SQLAlchemy `ScalarResult.one_or_none()`: the single row's value, Python
`None` on zero rows (indistinguishable from a single `None`-valued row),
`MultipleResultsFound` on more than one row. -/
def ScalarResult.one_or_none : List PyVal → Except Exc PyVal
  | [] => .ok .none
  | [x] => .ok x
  | _ :: _ :: _ => .error .multipleResultsFound

/-- SQLAlchemy `ScalarResult.all()`: every row, in order. -/
def ScalarResult.all (rows : List PyVal) : List PyVal := rows

/-- Modelled from the spec: `starlette_sqlalchemy/collection.py` is not in the
sources; per the spec it is "a minimal ordered-collection wrapper used as the
return type for all rows" — an ordered, finite, already-materialized sequence
preserving database row order. -/
structure Collection where
  items : List PyVal

/-- `Query.one`: `rows.one()` inside `try`, translating `NoResultFound` to
`NoResultError` and `MultipleResultsFound` to `MultipleResultsError`; any
other exception propagates unchanged. -/
def Query.one (s : Session) (stmt : Stmt) : Except Exc PyVal :=
  match (s.scalars stmt).bind ScalarResult.one with
  | .ok x => .ok x
  | .error e =>
    if e.caughtAsNoResultFound then .error .noResultError
    else if e.caughtAsMultipleResultsFound then .error .multipleResultsError
    else .error e

/-- `Query.one_or_none`: `rows.one_or_none()` inside `try`, translating only
`MultipleResultsFound` to `MultipleResultsError`. -/
def Query.one_or_none (s : Session) (stmt : Stmt) : Except Exc PyVal :=
  match (s.scalars stmt).bind ScalarResult.one_or_none with
  | .ok x => .ok x
  | .error e =>
    if e.caughtAsMultipleResultsFound then .error .multipleResultsError
    else .error e

/-- `Query.one_or_raise`: calls `one_or_none`; `raise exc` when the entity
`is None`, otherwise returns the entity. -/
def Query.one_or_raise (s : Session) (stmt : Stmt) (exc : Exc) : Except Exc PyVal :=
  match Query.one_or_none s stmt with
  | .error e => .error e
  | .ok entity => if entity.isNone then .error exc else .ok entity

/-- `Query.one_or_default`: calls `one_or_none`; returns
`entity if entity else default_value`, i.e. substitutes the default whenever
the entity is falsy. -/
def Query.one_or_default (s : Session) (stmt : Stmt) (default_value : PyVal) :
    Except Exc PyVal :=
  match Query.one_or_none s stmt with
  | .error e => .error e
  | .ok entity => .ok (if entity.truthy then entity else default_value)

/-- `Query.all`: materializes every row into a `Collection`, preserving order. -/
def Query.all (s : Session) (stmt : Stmt) : Except Exc Collection :=
  (s.scalars stmt).map (fun rows => Collection.mk (ScalarResult.all rows))

/-- Models SQLAlchemy `result.partitions(size)` for a streamed result: chunks
the row sequence into consecutive batches.  A batch holds `size` rows (the
last may be shorter); the definition takes at least one row per batch, which
agrees with `partitions` for every positive `size`. -/
def partitionsOf (size : Nat) : List PyVal → List (List PyVal)
  | [] => []
  | x :: xs => (x :: xs.take (size - 1)) :: partitionsOf size (xs.drop (size - 1))
termination_by l => l.length
decreasing_by simp [List.length_drop]; omega

/-- `Query.iterator`: attaches the `yield_per` execution hint, streams, and
yields each row of each partition in order.  The generator's yields are
collected into the list of items it produces. -/
def Query.iterator (s : Session) (stmt : Stmt) (batch_size : Nat) :
    Except Exc (List PyVal) :=
  let stmt := Stmt.withYieldPer batch_size stmt
  (s.stream stmt).map (fun rows => (partitionsOf batch_size rows).flatten)

/-- The body of `Query.exists` after the statement is wrapped: execute, take
the single row, and test `result.one() is True`. -/
def existsFromScalars (r : Except Exc (List PyVal)) : Except Exc Bool :=
  (r.bind ScalarResult.one).map PyVal.isTrue

/-- `Query.exists`: wraps the query as `sa.select(sa.exists(stmt))` and tests
whether the single resulting row is `True`. -/
def Query.exists (s : Session) (stmt : Stmt) : Except Exc Bool :=
  existsFromScalars (s.scalars (Stmt.selectExists stmt))

/-- The body of `Query.count` after the statement is wrapped: execute, take the
single row, and return `int(count) if count else 0`. -/
def countFromScalars (r : Except Exc (List PyVal)) : Except Exc Int :=
  (r.bind ScalarResult.one).bind (fun count =>
    if count.truthy then
      match count.toInt with
      | some n => .ok n
      | Option.none => .error .typeError
    else .ok 0)

/-- `Query.count`: wraps the query as
`sa.select(sa.func.count()).select_from(stmt.subquery())` and returns the
resulting integer, `0` when the counted value is falsy. -/
def Query.count (s : Session) (stmt : Stmt) : Except Exc Int :=
  countFromScalars (s.scalars (Stmt.selectCountFrom stmt))

/-- A selector argument of `choices`: a field name (`isinstance(x, str)`
branch, resolved with `operator.attrgetter`), the builtin `str` (the default
label selector, a callable), or an arbitrary caller-supplied callable. -/
inductive Selector where
  | attr (name : String)
  | strFn
  | fn (f : PyVal → Except Exc PyVal)

/-- Models `operator.attrgetter(name)` applied to a row: looks the attribute up
on a mapped object, raising `AttributeError` (modelled as a session-external
fault tagged 0) when absent or when the value has no named attributes. -/
def attrgetter (name : String) : PyVal → Except Exc PyVal
  | .obj fields =>
    match fields.lookup name with
    | some v => .ok v
    | Option.none => .error (.sessionFault 0)
  | _ => .error (.sessionFault 0)

/-- Resolves a selector once, at call entry, into a single callable form, as
`choices` does with its `isinstance` branches. -/
def resolveSelector : Selector → (PyVal → Except Exc PyVal)
  | .attr name => attrgetter name
  | .strFn => fun item => .ok (.str (pyStr item))
  | .fn f => f

/-- One yield of `choices`: `value_getter(item), label_getter(item)`, value
first. -/
def projectItem (value_attr label_attr : Selector) (item : PyVal) :
    Except Exc (PyVal × PyVal) :=
  (resolveSelector value_attr item).bind (fun v =>
    (resolveSelector label_attr item).map (fun l => (v, l)))

/-- `Query.choices`: materializes `all(stmt)` and yields a `(value, label)`
pair per row, in order; defaults are `label_attr = str` and
`value_attr = "id"`. -/
def Query.choices (s : Session) (stmt : Stmt)
    (label_attr value_attr : Selector) : Except Exc (List (PyVal × PyVal)) :=
  (Query.all s stmt).bind (fun coll =>
    coll.items.mapM (projectItem value_attr label_attr))

/-- A session that raises no fault of its own. -/
def sessionOk : Session := Session.mk Option.none

/-- A session whose execution raises the session-level fault `code`. -/
def sessionFaulty (code : Nat) : Session := Session.mk (some (.sessionFault code))

theorem scalars_sessionOk (stmt : Stmt) :
    Session.scalars sessionOk stmt = .ok (rowsOf stmt) := rfl

theorem stream_sessionOk (stmt : Stmt) :
    Session.stream sessionOk stmt = .ok (rowsOf stmt) := rfl

theorem ScalarResult.one_multi (rows : List PyVal) (h : 2 ≤ rows.length) :
    ScalarResult.one rows = .error .multipleResultsFound := by
  match rows with
  | [] => simp at h
  | [x] => simp only [List.length_singleton] at h; omega
  | a :: b :: rest => rfl

theorem ScalarResult.one_or_none_multi (rows : List PyVal) (h : 2 ≤ rows.length) :
    ScalarResult.one_or_none rows = .error .multipleResultsFound := by
  match rows with
  | [] => simp at h
  | [x] => simp only [List.length_singleton] at h; omega
  | a :: b :: rest => rfl

/-- C1: `one(query)` returns the single row when the query yields exactly one
row, fails with `NoResultError` on zero rows, fails with
`MultipleResultsError` on more than one row, and any other fault raised by
the session during execution propagates unchanged. -/
theorem one_spec (stmt : Stmt) (x : PyVal) (c : Nat) :
    (rowsOf stmt = [] → Query.one sessionOk stmt = .error .noResultError)
    ∧ (rowsOf stmt = [x] → Query.one sessionOk stmt = .ok x)
    ∧ (2 ≤ (rowsOf stmt).length →
        Query.one sessionOk stmt = .error .multipleResultsError)
    ∧ Query.one (sessionFaulty c) stmt = .error (.sessionFault c) := by
  refine ⟨?_, ?_, ?_, ?_⟩
  · intro h
    simp [Query.one, scalars_sessionOk, h, ScalarResult.one, Except.bind,
      Exc.caughtAsNoResultFound]
  · intro h
    simp [Query.one, scalars_sessionOk, h, ScalarResult.one, Except.bind]
  · intro h
    simp [Query.one, scalars_sessionOk, ScalarResult.one_multi _ h, Except.bind,
      Exc.caughtAsNoResultFound, Exc.caughtAsMultipleResultsFound]
  · simp [Query.one, Session.scalars, sessionFaulty, Except.bind,
      Exc.caughtAsNoResultFound, Exc.caughtAsMultipleResultsFound]

theorem one_spec_witness :
    Query.one sessionOk (.base []) = .error .noResultError
    ∧ Query.one sessionOk (.base [.int 5]) = .ok (.int 5)
    ∧ Query.one sessionOk (.base [.int 1, .int 2]) = .error .multipleResultsError
    ∧ Query.one (sessionFaulty 7) (.base []) = .error (.sessionFault 7) :=
  ⟨(one_spec (.base []) (.int 0) 7).1 rfl,
   (one_spec (.base [.int 5]) (.int 5) 7).2.1 rfl,
   (one_spec (.base [.int 1, .int 2]) (.int 0) 7).2.2.1 (by decide),
   (one_spec (.base []) (.int 0) 7).2.2.2⟩

/-- C4: `one_or_none(query)` returns the single row on exactly one row,
returns `None` on zero rows, and fails with `MultipleResultsError` on more
than one row. -/
theorem one_or_none_spec (stmt : Stmt) (x : PyVal) :
    (rowsOf stmt = [] → Query.one_or_none sessionOk stmt = .ok PyVal.none)
    ∧ (rowsOf stmt = [x] → Query.one_or_none sessionOk stmt = .ok x)
    ∧ (2 ≤ (rowsOf stmt).length →
        Query.one_or_none sessionOk stmt = .error .multipleResultsError) := by
  refine ⟨?_, ?_, ?_⟩
  · intro h
    simp [Query.one_or_none, scalars_sessionOk, h, ScalarResult.one_or_none,
      Except.bind]
  · intro h
    simp [Query.one_or_none, scalars_sessionOk, h, ScalarResult.one_or_none,
      Except.bind]
  · intro h
    simp [Query.one_or_none, scalars_sessionOk, ScalarResult.one_or_none_multi _ h,
      Except.bind, Exc.caughtAsMultipleResultsFound]

theorem one_or_none_spec_witness :
    Query.one_or_none sessionOk (.base []) = .ok PyVal.none
    ∧ Query.one_or_none sessionOk (.base [.str "u"]) = .ok (.str "u")
    ∧ Query.one_or_none sessionOk (.base [.int 1, .int 2, .int 3])
        = .error .multipleResultsError :=
  ⟨(one_or_none_spec (.base []) (.int 0)).1 rfl,
   (one_or_none_spec (.base [.str "u"]) (.str "u")).2.1 rfl,
   (one_or_none_spec (.base [.int 1, .int 2, .int 3]) (.int 0)).2.2 (by decide)⟩

/-- C2: `one_or_default(query, d)` returns `d` on zero rows and also whenever
the single found value is falsy (numeric zero, empty string, ...); a truthy
single value is returned unchanged. -/
theorem one_or_default_spec (stmt : Stmt) (x d : PyVal) :
    (rowsOf stmt = [] → Query.one_or_default sessionOk stmt d = .ok d)
    ∧ (rowsOf stmt = [x] → x.truthy = false →
        Query.one_or_default sessionOk stmt d = .ok d)
    ∧ (rowsOf stmt = [x] → x.truthy = true →
        Query.one_or_default sessionOk stmt d = .ok x) := by
  have base : ∀ y : PyVal, rowsOf stmt = [y] →
      Query.one_or_default sessionOk stmt d
        = .ok (if y.truthy then y else d) := by
    intro y h
    simp [Query.one_or_default, Query.one_or_none, scalars_sessionOk, h,
      ScalarResult.one_or_none, Except.bind]
  refine ⟨?_, ?_, ?_⟩
  · intro h
    simp [Query.one_or_default, Query.one_or_none, scalars_sessionOk, h,
      ScalarResult.one_or_none, Except.bind, PyVal.truthy]
  · intro h hf
    rw [base x h, hf]
    simp
  · intro h ht
    rw [base x h, ht]
    simp

theorem one_or_default_spec_witness :
    Query.one_or_default sessionOk (.base []) (.int 42) = .ok (.int 42)
    ∧ Query.one_or_default sessionOk (.base [.int 0]) (.int 42) = .ok (.int 42)
    ∧ Query.one_or_default sessionOk (.base [.str ""]) (.str "d") = .ok (.str "d")
    ∧ Query.one_or_default sessionOk (.base [.int 3]) (.int 42) = .ok (.int 3) :=
  ⟨(one_or_default_spec (.base []) (.int 0) (.int 42)).1 rfl,
   (one_or_default_spec (.base [.int 0]) (.int 0) (.int 42)).2.1 rfl rfl,
   (one_or_default_spec (.base [.str ""]) (.str "") (.str "d")).2.1 rfl rfl,
   (one_or_default_spec (.base [.int 3]) (.int 3) (.int 42)).2.2 rfl rfl⟩

theorem partitionsOf_flatten (size : Nat) (xs : List PyVal) :
    (partitionsOf size xs).flatten = xs := by
  induction xs using partitionsOf.induct size with
  | case1 => simp [partitionsOf]
  | case2 x xs ih =>
    rw [partitionsOf, List.flatten_cons, ih]
    simp [List.take_append_drop]

/-- C3: for every positive batch size, `iterator(query, batch_size)` yields
exactly the items of `all(query)`, element for element and in the same order,
whatever the session does; the batch size never changes content or order. -/
theorem iterator_eq_all (s : Session) (stmt : Stmt) (batch_size : Nat)
    (h : 0 < batch_size) :
    Query.iterator s stmt batch_size = (Query.all s stmt).map Collection.items := by
  have _hpos := h
  cases s with
  | mk fault =>
    cases fault with
    | none =>
      simp [Query.iterator, Query.all, Session.stream, Session.scalars,
        Except.map, rowsOf, partitionsOf_flatten, ScalarResult.all]
    | some e =>
      simp [Query.iterator, Query.all, Session.stream, Session.scalars,
        Except.map]

theorem iterator_eq_all_witness :
    (0 < 2
      ∧ Query.iterator sessionOk (.base [.int 1, .int 2, .int 3, .int 4, .int 5]) 2
          = (Query.all sessionOk (.base [.int 1, .int 2, .int 3, .int 4, .int 5])).map
              Collection.items)
    ∧ (Query.all sessionOk (.base [.int 1, .int 2, .int 3, .int 4, .int 5])).map
        Collection.items = .ok [.int 1, .int 2, .int 3, .int 4, .int 5] :=
  ⟨⟨by decide,
    iterator_eq_all sessionOk (.base [.int 1, .int 2, .int 3, .int 4, .int 5]) 2
      (by decide)⟩,
   rfl⟩

/-- C5 counterexample: a query yielding exactly one row whose scalar value is
`None` makes `one_or_raise` fail with the caller-supplied error instead of
returning the single row, because the source tests `entity is None` on the
result of `one_or_none`, which cannot distinguish a `None`-valued row from an
absent row. -/
theorem one_or_raise_none_row_counterexample :
    rowsOf (.base [PyVal.none]) = [PyVal.none]
    ∧ Query.one_or_raise sessionOk (.base [PyVal.none]) (.custom 3)
        = .error (.custom 3) := ⟨rfl, rfl⟩

/-- C5 (amended): `one_or_raise(query, E)` fails with exactly `E` (not any
builtin error kind) when the query yields zero rows, and returns the single
row when the query yields exactly one row whose value is not `None`; a single
`None`-valued row is indistinguishable from absence and also fails with `E`. -/
theorem one_or_raise_spec (stmt : Stmt) (e : Exc) (x : PyVal) :
    (rowsOf stmt = [] → Query.one_or_raise sessionOk stmt e = .error e)
    ∧ (rowsOf stmt = [x] → x.isNone = false →
        Query.one_or_raise sessionOk stmt e = .ok x)
    ∧ (rowsOf stmt = [PyVal.none] →
        Query.one_or_raise sessionOk stmt e = .error e) := by
  refine ⟨?_, ?_, ?_⟩
  · intro h
    simp [Query.one_or_raise, Query.one_or_none, scalars_sessionOk, h,
      ScalarResult.one_or_none, Except.bind, PyVal.isNone]
  · intro h hx
    simp [Query.one_or_raise, Query.one_or_none, scalars_sessionOk, h,
      ScalarResult.one_or_none, Except.bind, hx]
  · intro h
    simp [Query.one_or_raise, Query.one_or_none, scalars_sessionOk, h,
      ScalarResult.one_or_none, Except.bind, PyVal.isNone]

theorem one_or_raise_spec_witness :
    Query.one_or_raise sessionOk (.base []) (.custom 9) = .error (.custom 9)
    ∧ Query.one_or_raise sessionOk (.base [.str "row"]) (.custom 9)
        = .ok (.str "row") :=
  ⟨(one_or_raise_spec (.base []) (.custom 9) (.int 0)).1 rfl,
   (one_or_raise_spec (.base [.str "row"]) (.custom 9) (.str "row")).2.1 rfl rfl⟩

theorem countFromScalars_int (n : Int) :
    countFromScalars (.ok [.int n]) = .ok n := by
  by_cases h : n = 0
  · subst h; rfl
  · simp [countFromScalars, ScalarResult.one, Except.bind, PyVal.truthy,
      PyVal.toInt, h]

/-- C6: `count(query)` executes the original query wrapped as a sub-query
under a `count(*)` aggregate, returns the integer `N` when the query yields
`N` rows, and returns `0` (not a null sentinel) when the query yields no
rows. -/
theorem count_spec (stmt : Stmt) :
    (∀ s : Session, Query.count s stmt
        = countFromScalars (s.scalars (Stmt.selectCountFrom stmt)))
    ∧ Query.count sessionOk stmt = .ok ((rowsOf stmt).length : Int)
    ∧ (rowsOf stmt = [] → Query.count sessionOk stmt = .ok 0) := by
  have hmain : Query.count sessionOk stmt = .ok ((rowsOf stmt).length : Int) := by
    rw [Query.count, scalars_sessionOk]
    exact countFromScalars_int ((rowsOf stmt).length : Int)
  refine ⟨fun s => rfl, hmain, fun h => ?_⟩
  rw [hmain, h]
  rfl

theorem count_spec_witness :
    Query.count sessionOk (.base [.str "a", .str "b", .str "c"]) = .ok 3
    ∧ Query.count sessionOk (.base []) = .ok 0 :=
  ⟨(count_spec (.base [.str "a", .str "b", .str "c"])).2.1,
   (count_spec (.base [])).2.2 rfl⟩

theorem existsFromScalars_bool (b : Bool) :
    existsFromScalars (.ok [.bool b]) = .ok b := by
  cases b <;> rfl

/-- C7: `exists(query)` executes the original query wrapped as a sub-query of
a boolean EXISTS probe, and returns `true` exactly when the query would have
yielded at least one row; in particular it returns `false` on zero matching
rows. -/
theorem exists_spec (stmt : Stmt) :
    (∀ s : Session, Query.exists s stmt
        = existsFromScalars (s.scalars (Stmt.selectExists stmt)))
    ∧ Query.exists sessionOk stmt = .ok (!(rowsOf stmt).isEmpty)
    ∧ (Query.exists sessionOk stmt = .ok true ↔ rowsOf stmt ≠ [])
    ∧ (rowsOf stmt = [] → Query.exists sessionOk stmt = .ok false) := by
  have hmain : Query.exists sessionOk stmt = .ok (!(rowsOf stmt).isEmpty) := by
    rw [Query.exists, scalars_sessionOk]
    exact existsFromScalars_bool (!(rowsOf stmt).isEmpty)
  refine ⟨fun s => rfl, hmain, ?_, fun h => ?_⟩
  · rw [hmain]
    simp [List.isEmpty_iff]
  · rw [hmain, h]
    rfl

theorem exists_spec_witness :
    Query.exists sessionOk (.base [.int 1, .int 2]) = .ok true
    ∧ Query.exists sessionOk (.base []) = .ok false :=
  ⟨(exists_spec (.base [.int 1, .int 2])).2.2.1.mpr (fun h => List.noConfusion h),
   (exists_spec (.base [])).2.2.2 rfl⟩

/-- C8: `choices(query, label_selector, value_selector)` materializes the rows
via `all(query)` and then yields one `(value, label)` pair per row in
database row order; a field-name selector is resolved by attribute lookup and
a callable selector is applied to the row; the defaults project each row to
`(row.id, str(row))`; on the two-row example with selectors `"name"` and
`"id"` it yields `[(1, "a"), (2, "b")]` in that order. -/
theorem choices_spec (stmt : Stmt) (label_attr value_attr : Selector) :
    (∀ s : Session, Query.choices s stmt label_attr value_attr
        = (Query.all s stmt).bind (fun coll =>
            coll.items.mapM (projectItem value_attr label_attr)))
    ∧ Query.choices sessionOk stmt label_attr value_attr
        = (rowsOf stmt).mapM (projectItem value_attr label_attr)
    ∧ Query.choices sessionOk stmt .strFn (.attr "id")
        = (rowsOf stmt).mapM (fun item =>
            (attrgetter "id" item).map (fun v => (v, PyVal.str (pyStr item))))
    ∧ Query.choices sessionOk
        (.base [.obj [("id", .int 1), ("name", .str "a")],
                .obj [("id", .int 2), ("name", .str "b")]])
        (.attr "name") (.attr "id")
        = .ok [(.int 1, .str "a"), (.int 2, .str "b")] := by
  refine ⟨fun s => rfl, rfl, ?_, rfl⟩
  have hfun : projectItem (Selector.attr "id") Selector.strFn = fun item =>
      (attrgetter "id" item).map (fun v => (v, PyVal.str (pyStr item))) := by
    funext item
    rw [projectItem]
    simp only [resolveSelector]
    cases h : attrgetter "id" item <;>
      simp [h, resolveSelector, Except.bind, Except.map]
  rw [Query.choices, Query.all, scalars_sessionOk, Except.map, Except.bind, hfun]
  rfl

/-- C9: when the query yields more than one row, `one_or_raise(query, E)`
fails with `MultipleResultsError` propagated from its internal call to
`one_or_none`, never with the caller-supplied error `E`. -/
theorem one_or_raise_multiple_spec (stmt : Stmt) (c : Nat)
    (h : 2 ≤ (rowsOf stmt).length) :
    Query.one_or_raise sessionOk stmt (.custom c) = .error .multipleResultsError
    ∧ Query.one_or_raise sessionOk stmt (.custom c) ≠ .error (.custom c) := by
  have h1 : Query.one_or_raise sessionOk stmt (.custom c)
      = .error .multipleResultsError := by
    simp [Query.one_or_raise, Query.one_or_none, scalars_sessionOk,
      ScalarResult.one_or_none_multi _ h, Except.bind,
      Exc.caughtAsMultipleResultsFound]
  refine ⟨h1, ?_⟩
  rw [h1]
  intro hcontra
  injection hcontra with h2
  exact Exc.noConfusion h2

theorem one_or_raise_multiple_spec_witness :
    Query.one_or_raise sessionOk (.base [.int 1, .int 2]) (.custom 4)
        = .error .multipleResultsError
    ∧ Query.one_or_raise sessionOk (.base [.int 1, .int 2]) (.custom 4)
        ≠ .error (.custom 4) :=
  one_or_raise_multiple_spec (.base [.int 1, .int 2]) 4 (by decide)

/-- C10: `one_or_raise` substitutes the caller-supplied error only when the
result of `one_or_none` is literally `None`: a single present row whose value
is falsy (numeric zero, empty string, ...) is returned unchanged, while
`one_or_default` substitutes its default on that same row. -/
theorem one_or_raise_falsy_value_spec (stmt : Stmt) (x d : PyVal) (e : Exc)
    (h : rowsOf stmt = [x]) (hx : x.isNone = false) (hf : x.truthy = false) :
    Query.one_or_raise sessionOk stmt e = .ok x
    ∧ Query.one_or_default sessionOk stmt d = .ok d := by
  constructor
  · simp [Query.one_or_raise, Query.one_or_none, scalars_sessionOk, h,
      ScalarResult.one_or_none, Except.bind, hx]
  · simp [Query.one_or_default, Query.one_or_none, scalars_sessionOk, h,
      ScalarResult.one_or_none, Except.bind, hf]

theorem one_or_raise_falsy_value_spec_witness :
    Query.one_or_raise sessionOk (.base [.int 0]) (.custom 5) = .ok (.int 0)
    ∧ Query.one_or_default sessionOk (.base [.int 0]) (.str "d") = .ok (.str "d") :=
  one_or_raise_falsy_value_spec (.base [.int 0]) (.int 0) (.str "d") (.custom 5)
    rfl rfl rfl
